import Mathlib

/-!
# Verification of the LRO polling layer of calmh/azure-sdk-for-go

Shallow embedding of the long-running-operation (LRO) client code:
* `sdk/keyvault/azcertificates/client.go` — `BeginCreateCertificate`,
  `BeginDeleteCertificate`, `BeginRecoverDeletedCertificate` and their handlers;
* `services/preview/sql/mgmt/v4.0/sql/syncmembers.go` — the responders;
* the `azkeys` model conversions (`keyPropertiesFromGenerated`,
  `jsonWebKeyFromGenerated`, `JSONWebKey.toGenerated`).

Go conventions modelled explicitly:
* a Go pointer `*T` becomes `Option T` (`none` = nil pointer);
* a Go slice `[]T` becomes `Option (List T)` (`none` = nil slice, `some l` =
  non-nil slice with elements `l`; `make([]T, n)` yields `some` of a list of
  length `n`, which is distinct from a nil slice);
* a Go `(T, error)` pair becomes `T × Option GoError`, and a fallible
  computation whose value is unusable on error becomes `Except GoError T`;
* a nil-pointer dereference (a run-time panic) is modelled by the `none`
  outcome of an `Option`-valued function;
* functions that perform HTTP I/O additionally return the list of `Request`
  values they issued, so "issues no request" is a provable statement.
-/

/-- Errors returned through Go `error` values, plus the panic outcome. -/
inductive GoError where
  /-- `errors.New(s)` / `fmt.Errorf`-style message errors. -/
  | message (s : String)
  /-- an error coming from the transport / pipeline -/
  | transport (s : String)
deriving DecidableEq, Repr

/-- An HTTP request descriptor: which endpoint the client code targets.
Request bodies and auth are owned by the excluded layers (spec §1, §6). -/
inductive Request where
  /-- `KeyVaultClient.CreateCertificate` — the initiating create call -/
  | createCertificate (vaultURL certificateName : String)
  /-- `KeyVaultClient.DeleteCertificate` — the initiating delete call -/
  | deleteCertificate (vaultURL certificateName : String)
  /-- `KeyVaultClient.RecoverDeletedCertificate` — the initiating recover call -/
  | recoverDeletedCertificate (vaultURL certificateName : String)
  /-- `KeyVaultClient.GetCertificateCreateRequest` / `Client.GetCertificate` -/
  | getCertificate (vaultURL certificateName version : String)
  /-- `KeyVaultClient.GetDeletedCertificateCreateRequest` -/
  | getDeletedCertificate (vaultURL certificateName : String)
  /-- `runtime.NewRequest(ctx, http.MethodGet, endpoint)` — a plain GET of a URL -/
  | rawGet (url : String)
deriving DecidableEq, Repr

/-- A raw HTTP response as seen by this layer: status code, headers, body.
`bodyStatus` is the explicit operation-status field carried by the JSON body
when present (`none` for an absent or malformed body, per spec §6 the
extractor must tolerate those); `body` is the raw payload handed to the
deserialization layer. -/
structure HttpResponse where
  statusCode : Nat
  headers : List (String × String)
  bodyStatus : Option String
  body : String
deriving DecidableEq, Repr

/-- Go's `http.Header.Get`: the first value of the named header, `""` when the
header is absent. -/
def headerGet (headers : List (String × String)) (key : String) : String :=
  match headers.find? (fun p => p.1 == key) with
  | some p => p.2
  | none => ""

/-! ## azcertificates: handlers and Begin functions (client.go) -/

/-- Which per-kind poll closure a certificate LRO handler carries
(`beginCreateCertificateOperation`, `beginDeleteCertificateOperation`,
`beginRecoverDeletedCertificate` in client.go). -/
inductive CertHandlerKind where
  | create
  | delete
  | recover
deriving DecidableEq, Repr

/-- The state of a certificate LRO handler: its kind (which poll closure it
holds), the certificate name captured by its closures, and — for the create
handler — the `PollURL` and `Status` fields set by `BeginCreateCertificate`. -/
structure CertHandler where
  kind : CertHandlerKind
  certificateName : String
  pollURL : String
  status : String
deriving DecidableEq, Repr

/-- The request issued by a certificate handler's poll closure:
* `beginCreateCertificateOperation.poll` does `runtime.NewRequest(ctx, GET, endpoint)`
  on the endpoint it is given (the handler's `PollURL`);
* `beginDeleteCertificateOperation.poll` does
  `GetDeletedCertificateCreateRequest(ctx, vaultURL, certificateName, nil)`;
* `beginRecoverDeletedCertificate.poll` does
  `GetCertificateCreateRequest(ctx, vaultURL, certificateName, "", nil)`. -/
def CertHandler.pollRequest (vaultURL : String) (h : CertHandler) : Request :=
  match h.kind with
  | CertHandlerKind.create => Request.rawGet h.pollURL
  | CertHandlerKind.delete => Request.getDeletedCertificate vaultURL h.certificateName
  | CertHandlerKind.recover => Request.getCertificate vaultURL h.certificateName ""

/-- How a `Begin*` call produced its poller: reconstructed from a resume token
(`runtime.NewPollerFromResumeToken(token, ..., handler)`) or freshly built
from the initiating response (`runtime.NewPoller(rawResp, ..., handler)`). -/
inductive PollerStart where
  /-- `runtime.NewPollerFromResumeToken` with the given token and handler -/
  | fromResumeToken (token : String) (handler : CertHandler)
  /-- `runtime.NewPoller` on the captured initiating response, with the handler -/
  | fresh (initialResponse : HttpResponse) (handler : CertHandler)
deriving DecidableEq, Repr

/-- `Client.BeginCreateCertificate` (client.go lines 89–143).
`doCreate` is the outcome of the generated `CreateCertificate` call: on
success, the captured raw response together with `createResp.Status`
(a `*string`). The second component of the result is the list of initiating
requests the call issued. -/
def beginCreateCertificate (vaultURL certificateName resumeToken : String)
    (doCreate : Except GoError (HttpResponse × Option String)) :
    Except GoError PollerStart × List Request :=
  let handler : CertHandler :=
    { kind := CertHandlerKind.create, certificateName := certificateName,
      pollURL := "", status := "" }
  if resumeToken ≠ "" then
    (Except.ok (PollerStart.fromResumeToken resumeToken handler), [])
  else
    match doCreate with
    | Except.error e => (Except.error e, [Request.createCertificate vaultURL certificateName])
    | Except.ok (rawResp, createStatus) =>
      let pollURL := headerGet rawResp.headers "Location"
      if pollURL = "" then
        (Except.error (GoError.message "missing Location header"),
         [Request.createCertificate vaultURL certificateName])
      else
        -- `handler.Status = *createResp.Status` dereferences the pointer
        match createStatus with
        | none => (Except.error (GoError.message "nil pointer dereference"),
                   [Request.createCertificate vaultURL certificateName])
        | some st =>
          (Except.ok (PollerStart.fresh rawResp
              { handler with pollURL := pollURL, status := st }),
           [Request.createCertificate vaultURL certificateName])

/-- `Client.BeginDeleteCertificate` (client.go lines 253–283). `doDelete` is
the outcome of the generated `DeleteCertificate` call (captured raw response
on success; the typed response is discarded by the source). -/
def beginDeleteCertificate (vaultURL certificateName resumeToken : String)
    (doDelete : Except GoError HttpResponse) :
    Except GoError PollerStart × List Request :=
  let handler : CertHandler :=
    { kind := CertHandlerKind.delete, certificateName := certificateName,
      pollURL := "", status := "" }
  if resumeToken ≠ "" then
    (Except.ok (PollerStart.fromResumeToken resumeToken handler), [])
  else
    match doDelete with
    | Except.error e => (Except.error e, [Request.deleteCertificate vaultURL certificateName])
    | Except.ok rawResp =>
      (Except.ok (PollerStart.fresh rawResp handler),
       [Request.deleteCertificate vaultURL certificateName])

/-- `Client.BeginRecoverDeletedCertificate` (client.go lines 1204–1234).
`doRecover` is the outcome of the generated `RecoverDeletedCertificate` call. -/
def beginRecoverDeletedCertificate (vaultURL certificateName resumeToken : String)
    (doRecover : Except GoError HttpResponse) :
    Except GoError PollerStart × List Request :=
  let handler : CertHandler :=
    { kind := CertHandlerKind.recover, certificateName := certificateName,
      pollURL := "", status := "" }
  if resumeToken ≠ "" then
    (Except.ok (PollerStart.fromResumeToken resumeToken handler), [])
  else
    match doRecover with
    | Except.error e => (Except.error e, [Request.recoverDeletedCertificate vaultURL certificateName])
    | Except.ok rawResp =>
      (Except.ok (PollerStart.fresh rawResp handler),
       [Request.recoverDeletedCertificate vaultURL certificateName])

/-! ## The generic poller engine (spec §§3–4)

The generic `runtime.Poller` engine and the legacy `azure.Future` live in the
`azcore/runtime` and `go-autorest/azure` packages, which are not among the
sources here; only their per-kind handlers and callers are. The definitions
in this section are therefore modelled from the spec. Per spec §4.4 the
`Future` is the degenerate instantiation of the same engine whose result type
is the raw response, so one state type covers both. -/

/-- Modelled from the spec (§3): the normalized operation status; the engine
type `runtime.Poller` that owns it is not part of the sources here. -/
inductive OperationStatus where
  | notStarted
  | inProgress
  | succeeded
  | failed
  | canceled
deriving DecidableEq, Repr

/-- Terminal statuses (spec glossary): Succeeded, Failed or Canceled. -/
def OperationStatus.isTerminal : OperationStatus → Bool
  | OperationStatus.succeeded => true
  | OperationStatus.failed => true
  | OperationStatus.canceled => true
  | _ => false

/-- Modelled from the spec (§3 PollingMetadata, §4.2): the state a poller
tracks between `Poll` calls; `runtime.Poller` itself is not in the sources. -/
structure PollerState where
  status : OperationStatus
  pollURL : String
  retryAfter : Nat
  backoff : Nat
  lastResponse : HttpResponse
deriving DecidableEq, Repr

/-- Modelled from the spec (§4.1): the explicit body status field, parsed. -/
def statusFromBody (s : String) : Option OperationStatus :=
  if s = "Succeeded" then some OperationStatus.succeeded
  else if s = "Failed" then some OperationStatus.failed
  else if s = "Canceled" then some OperationStatus.canceled
  else if s = "InProgress" then some OperationStatus.inProgress
  else none

/-- Modelled from the spec (§4.1): normalize a raw response into an
`OperationStatus`. The body's explicit status field, when present, takes
precedence over the HTTP status code; 200/201/204 mean Succeeded and
202 means InProgress otherwise. The extractor itself lives in the engine
packages absent from the sources. -/
def extractStatus (r : HttpResponse) : OperationStatus :=
  match r.bodyStatus.bind statusFromBody with
  | some st => st
  | none =>
    if r.statusCode = 200 ∨ r.statusCode = 201 ∨ r.statusCode = 204 then
      OperationStatus.succeeded
    else if r.statusCode = 202 then OperationStatus.inProgress
    else OperationStatus.inProgress

/-- Modelled from the spec (§4.1): `Retry-After` header in seconds, when
present and numeric. -/
def retryAfterSeconds (r : HttpResponse) : Option Nat :=
  (headerGet r.headers "Retry-After").toNat?

/-- Modelled from the spec (§4.1): cap on the doubling client-side backoff. -/
def backoffCap : Nat := 32

/-- Modelled from the spec (§4.1, §4.2): build the initial poller state from
the initiating raw response (`runtime.NewPoller`, absent from the sources):
possibly already terminal; next poll URL from `Location` when present. -/
def newPoller (initResp : HttpResponse) : PollerState :=
  { status := extractStatus initResp
    pollURL := headerGet initResp.headers "Location"
    retryAfter := match retryAfterSeconds initResp with
      | some n => n
      | none => 1
    backoff := 1
    lastResponse := initResp }

/-- `Done()` (spec §4.2): pure read, true iff the status is terminal. -/
def PollerState.done (p : PollerState) : Bool :=
  p.status.isTerminal

/-- Modelled from the spec (§4.1, §4.2): one `Poll(ctx)` step of the engine
(absent from the sources). A no-op when already done; otherwise asks the
handler for the next request, runs it on the transport, and normalizes the
response: a transport error or a 4xx/5xx poll response is surfaced without
touching the stored metadata; otherwise status, poll URL, retry delay and
backoff are updated per §4.1. Returns the error outcome, the next state, and
the requests issued. -/
def PollerState.poll (handlerPoll : PollerState → Request)
    (transport : Request → Except GoError HttpResponse) (p : PollerState) :
    Except GoError Unit × PollerState × List Request :=
  if p.done then (Except.ok (), p, [])
  else
    let req := handlerPoll p
    match transport req with
    | Except.error e => (Except.error e, p, [req])
    | Except.ok resp =>
      if 400 ≤ resp.statusCode then
        (Except.error (GoError.transport "poll request failed"), p, [req])
      else
        let loc := headerGet resp.headers "Location"
        let next : PollerState :=
          { status := extractStatus resp
            pollURL := if loc = "" then p.pollURL else loc
            retryAfter := match retryAfterSeconds resp with
              | some n => n
              | none => p.backoff
            backoff := match retryAfterSeconds resp with
              | some _ => 1
              | none => min (p.backoff * 2) backoffCap
            lastResponse := resp }
        (Except.ok (), next, [req])

/-- Iterate `Poll` a given number of times, collecting every request issued. -/
def PollerState.pollMany (handlerPoll : PollerState → Request)
    (transport : Request → Except GoError HttpResponse) :
    Nat → PollerState → PollerState × List Request
  | 0, p => (p, [])
  | n + 1, p =>
    let step := p.poll handlerPoll transport
    let rest := PollerState.pollMany handlerPoll transport n step.2.1
    (rest.1, step.2.2 ++ rest.2)

/-- Modelled from the spec (§4.2): `Result(ctx)` — NotDoneError before
terminal; an operation error after Failed/Canceled; after Succeeded the
result, derived here from the last stored response (for the raw-response
instantiation the result is that response itself). -/
def PollerState.result (p : PollerState) : Except GoError HttpResponse :=
  if p.status = OperationStatus.succeeded then Except.ok p.lastResponse
  else if p.status = OperationStatus.failed ∨ p.status = OperationStatus.canceled then
    Except.error (GoError.message "OperationFailed")
  else Except.error (GoError.message "NotDoneError")

/-! ## sql sync-members responders (syncmembers.go)

The responders compose `autorest.Respond` with
`azure.WithErrorUnlessStatusCode(...)`, `autorest.ByUnmarshallingJSON` and
`autorest.ByClosing`. The `go-autorest` combinators are not among the sources
here, so their semantics are modelled from the spec: status-code gating fails
exactly outside the accepted set, and body deserialization is owned by the
excluded conversion layer (spec §1, §6 — "status extraction must tolerate
absent or malformed bodies"), so unmarshalling is modelled as totally keeping
the raw body as the typed payload. -/

/-- Modelled from the spec: `azure.WithErrorUnlessStatusCode(codes...)` — an
error unless the response's status code is one of the accepted codes. -/
def withErrorUnlessStatusCode (accepted : List Nat) (resp : HttpResponse) :
    Option GoError :=
  if resp.statusCode ∈ accepted then none
  else some (GoError.message "unexpected status code")

/-- `autorest.Response`: the raw terminal HTTP response wrapper, the whole
result of the delete-style responders. -/
structure AutorestResponse where
  response : Option HttpResponse
deriving DecidableEq, Repr

/-- `sql.SyncMember` as this layer sees it: the unmarshalled payload
(modelled as the raw body, deserialization being external) plus the embedded
`autorest.Response`. -/
structure SyncMember where
  properties : Option String
  response : AutorestResponse
deriving DecidableEq, Repr

/-- `SyncMembersClient.CreateOrUpdateResponder` (syncmembers.go lines 112–121):
error unless the status code is 200, 201 or 202; on acceptance the body is
unmarshalled into the typed `SyncMember`; `result.Response` is set to the raw
response in every case. -/
def CreateOrUpdateResponder (resp : HttpResponse) : SyncMember × Option GoError :=
  match withErrorUnlessStatusCode [200, 201, 202] resp with
  | some e => ({ properties := none, response := { response := some resp } }, some e)
  | none => ({ properties := some resp.body, response := { response := some resp } }, none)

/-- `SyncMembersClient.DeleteResponder` (syncmembers.go lines 198–206): error
unless the status code is 200, 202 or 204; the result is only the raw
terminal response (`result.Response = resp`), with no typed payload. -/
def DeleteResponder (resp : HttpResponse) : AutorestResponse × Option GoError :=
  ({ response := some resp }, withErrorUnlessStatusCode [200, 202, 204] resp)

/-- `SyncMembersClient.RefreshMemberSchemaResponder` (syncmembers.go lines
614–622): error unless the status code is 200 or 202; the result is only the
raw terminal response, with no typed payload. -/
def RefreshMemberSchemaResponder (resp : HttpResponse) :
    AutorestResponse × Option GoError :=
  ({ response := some resp }, withErrorUnlessStatusCode [200, 202] resp)

/-! ## azkeys model conversions (models and their converters)

Pointers are `Option`s; a `[]byte` / `[]*T` slice is `Option (List ...)` with
`none` for the nil slice; `time.Time` values are opaque and modelled as `Nat`
instants. String-backed named types (`DeletionRecoveryLevel`, `Operation`,
`CurveName`, `KeyType` and the generated counterparts) collapse to `String`,
so the pointer casts between them are the identity. -/

/-- `generated.KeyAttributes`. -/
structure KeyAttributes where
  recoverableDays : Option Int
  recoveryLevel : Option String
  enabled : Option Bool
  expires : Option Nat
  notBefore : Option Nat
  created : Option Nat
  updated : Option Nat
  exportable : Option Bool
deriving DecidableEq, Repr

/-- `generated.KeyReleasePolicy`. -/
structure KeyReleasePolicy where
  contentType : Option String
  encodedPolicy : Option (List Nat)
  immutable : Option Bool
deriving DecidableEq, Repr

/-- `azkeys.ReleasePolicy`. -/
structure ReleasePolicy where
  contentType : Option String
  encodedPolicy : Option (List Nat)
  immutable : Option Bool
deriving DecidableEq, Repr

/-- `keyReleasePolicyFromGenerated`: nil maps to nil, otherwise a fieldwise
copy. -/
def keyReleasePolicyFromGenerated (i : Option KeyReleasePolicy) : Option ReleasePolicy :=
  match i with
  | none => none
  | some g =>
    some { contentType := g.contentType, encodedPolicy := g.encodedPolicy,
           immutable := g.immutable }

/-- `azkeys.Properties` — the properties of a key managed by the key vault. -/
structure KeyProperties where
  createdOn : Option Nat
  enabled : Option Bool
  expiresOn : Option Nat
  exportable : Option Bool
  id : Option String
  managed : Option Bool
  name : Option String
  notBefore : Option Nat
  recoverableDays : Option Int
  recoveryLevel : Option String
  releasePolicy : Option ReleasePolicy
  tags : Option (List (String × Option String))
  updatedOn : Option Nat
  vaultURL : Option String
  version : Option String
deriving DecidableEq, Repr

/-- The zero value `Properties{}` of `azkeys.Properties`. -/
def emptyKeyProperties : KeyProperties :=
  { createdOn := none, enabled := none, expiresOn := none, exportable := none,
    id := none, managed := none, name := none, notBefore := none,
    recoverableDays := none, recoveryLevel := none, releasePolicy := none,
    tags := none, updatedOn := none, vaultURL := none, version := none }

/-- `keyPropertiesFromGenerated` (azkeys models file, lines 85–107). The Go
function returns `*Properties`; the outer `Option` is the panic effect (`none`
= nil-pointer dereference panic), the inner `Option` is the returned pointer
(`some` of a value, since every return allocates). A nil argument yields a
pointer to the zero `Properties`; a non-nil argument has its `RecoveryLevel`
field dereferenced unconditionally (`to.Ptr(string(*i.RecoveryLevel))`). -/
def keyPropertiesFromGenerated (i : Option KeyAttributes)
    (id name version : Option String) (managed : Option Bool)
    (vaultURL : Option String) (tags : Option (List (String × Option String)))
    (releasePolicy : Option KeyReleasePolicy) :
    Option (Option KeyProperties) :=
  match i with
  | none => some (some emptyKeyProperties)
  | some a =>
    match a.recoveryLevel with
    | none => none
    | some lvl =>
      some (some
        { createdOn := a.created, enabled := a.enabled, expiresOn := a.expires,
          exportable := a.exportable, id := id, managed := managed, name := name,
          notBefore := a.notBefore, recoverableDays := a.recoverableDays,
          recoveryLevel := some lvl,
          releasePolicy := keyReleasePolicyFromGenerated releasePolicy,
          tags := tags, updatedOn := a.updated, vaultURL := vaultURL,
          version := version })

/-- `Operation` (`azkeys`) is a string-backed named type; the casts
`(*Operation)(op)` and `(*string)(op)` are identities in the model. -/
abbrev KeyOperation := String

/-- `generated.JSONWebKey`. Byte slices and `[]*string` keep the Go nil /
non-nil slice distinction through the outer `Option`. -/
structure GeneratedJSONWebKey where
  crv : Option String
  d : Option (List Nat)
  dp : Option (List Nat)
  dq : Option (List Nat)
  e : Option (List Nat)
  k : Option (List Nat)
  keyOps : Option (List (Option String))
  kid : Option String
  kty : Option String
  n : Option (List Nat)
  p : Option (List Nat)
  q : Option (List Nat)
  qi : Option (List Nat)
  t : Option (List Nat)
  x : Option (List Nat)
  y : Option (List Nat)
deriving DecidableEq, Repr

/-- `azkeys.JSONWebKey` — the publicly exposed JSON web key. -/
structure JSONWebKey where
  crv : Option String
  d : Option (List Nat)
  dp : Option (List Nat)
  dq : Option (List Nat)
  e : Option (List Nat)
  k : Option (List Nat)
  keyOps : Option (List (Option KeyOperation))
  id : Option String
  keyType : Option String
  n : Option (List Nat)
  p : Option (List Nat)
  q : Option (List Nat)
  qi : Option (List Nat)
  t : Option (List Nat)
  x : Option (List Nat)
  y : Option (List Nat)
deriving DecidableEq, Repr

/-- Go's `range` view of a possibly-nil slice: `len(nil) = 0`, iteration over
a nil slice is empty. -/
def sliceElems (s : Option (List α)) : List α :=
  match s with
  | none => []
  | some l => l

/-- `jsonWebKeyFromGenerated` (azkeys models file, lines 174–202): nil maps to
a pointer to the zero value; otherwise `ops := make([]*Operation, len(i.KeyOps))`
is filled element-wise by the pointer cast — note `make` always yields a
non-nil slice. The Go function returns `*JSONWebKey`, never nil, so the model
returns the pointee. -/
def jsonWebKeyFromGenerated (i : Option GeneratedJSONWebKey) : JSONWebKey :=
  match i with
  | none =>
    { crv := none, d := none, dp := none, dq := none, e := none, k := none,
      keyOps := none, id := none, keyType := none, n := none, p := none,
      q := none, qi := none, t := none, x := none, y := none }
  | some g =>
    { crv := g.crv, d := g.d, dp := g.dp, dq := g.dq, e := g.e, k := g.k,
      keyOps := some ((sliceElems g.keyOps).map (fun op => op)),
      id := g.kid, keyType := g.kty, n := g.n, p := g.p, q := g.q,
      qi := g.qi, t := g.t, x := g.x, y := g.y }

/-- `JSONWebKey.toGenerated` (azkeys models file, lines 205–228):
`ops := make([]*string, len(j.KeyOps))` filled element-wise by the pointer
cast (again a non-nil slice even when `j.KeyOps` is nil), all other fields
copied or pointer-cast. Returns `&generated.JSONWebKey{...}`, never nil. -/
def JSONWebKey.toGenerated (j : JSONWebKey) : GeneratedJSONWebKey :=
  { crv := j.crv, d := j.d, dp := j.dp, dq := j.dq, e := j.e, k := j.k,
    keyOps := some ((sliceElems j.keyOps).map (fun op => op)),
    kid := j.id, kty := j.keyType, n := j.n, p := j.p, q := j.q,
    qi := j.qi, t := j.t, x := j.x, y := j.y }

/-! ## azcertificates: the create handler's result function (client.go 102–108)

`beginCreateCertificateOperation.result` calls `c.GetCertificate(ctx,
certificateName, nil)` and converts the response by the Go type conversion
`CreateCertificateResponse(resp)`; on error it returns the zero
`CreateCertificateResponse` together with that error. `Client.GetCertificate`
is consumed at its public boundary: the environment maps the request it
issues to its `(GetCertificateResponse, error)` outcome. -/

/-- `azcertificates.CertificateWithPolicy`, the payload embedded in both
`GetCertificateResponse` and `CreateCertificateResponse` (domain conversions
of its fields are owned by the excluded layer; field types are collapsed to
options of base values). -/
structure CertificateWithPolicy where
  properties : Option String
  cer : Option (List Nat)
  contentType : Option String
  id : Option String
  keyID : Option String
  secretID : Option String
  policy : Option String
deriving DecidableEq, Repr

/-- The zero value of `CertificateWithPolicy`. -/
def emptyCertificateWithPolicy : CertificateWithPolicy :=
  { properties := none, cer := none, contentType := none, id := none,
    keyID := none, secretID := none, policy := none }

/-- `azcertificates.GetCertificateResponse`. -/
structure GetCertificateResponse where
  certificateWithPolicy : CertificateWithPolicy
deriving DecidableEq, Repr

/-- `azcertificates.CreateCertificateResponse`. -/
structure CreateCertificateResponse where
  certificateWithPolicy : CertificateWithPolicy
deriving DecidableEq, Repr

/-- `beginCreateCertificateOperation.result` (client.go lines 102–108):
`GetCertificate` for the captured certificate name (version `""`, options
nil); on error the zero-valued response plus the error; on success the type
conversion `CreateCertificateResponse(resp)`. Also returns the requests
issued. -/
def beginCreateCertificateResult (vaultURL certificateName : String)
    (getCertificate : Request → GetCertificateResponse × Option GoError) :
    (CreateCertificateResponse × Option GoError) × List Request :=
  let req := Request.getCertificate vaultURL certificateName ""
  let outcome := getCertificate req
  match outcome.2 with
  | some e =>
    (({ certificateWithPolicy := emptyCertificateWithPolicy }, some e), [req])
  | none =>
    (({ certificateWithPolicy := outcome.1.certificateWithPolicy }, none), [req])

/-! ## Shared concrete sample values (used to instantiate the theorems) -/

/-- A plain 200 response with no headers and no body status field. -/
def sampleResponse200 : HttpResponse :=
  { statusCode := 200, headers := [], bodyStatus := none, body := "" }

/-- A 202 initiating response carrying a `Location` header. -/
def respWithLocation : HttpResponse :=
  { statusCode := 202, headers := [("Location", "https://v/pending")],
    bodyStatus := none, body := "" }

/-- A 202 initiating response without a `Location` header. -/
def respWithoutLocation : HttpResponse :=
  { statusCode := 202, headers := [], bodyStatus := none, body := "" }

/-- A poller state already in the Succeeded terminal status. -/
def sampleTerminalPoller : PollerState :=
  { status := OperationStatus.succeeded, pollURL := "https://v/pending",
    retryAfter := 1, backoff := 1, lastResponse := sampleResponse200 }

/-- A handler-poll function: GET the stored poll URL. -/
def sampleHandlerPoll : PollerState → Request :=
  fun p => Request.rawGet p.pollURL

/-- A transport answering every request with the plain 200 response. -/
def sampleTransport : Request → Except GoError HttpResponse :=
  fun _ => Except.ok sampleResponse200

/-! ## Shared helper lemmas -/

/-- A poll on a done poller returns the state unchanged and issues nothing. -/
theorem poll_done_noop (handlerPoll : PollerState → Request)
    (transport : Request → Except GoError HttpResponse) (p : PollerState)
    (h : p.done = true) :
    PollerState.poll handlerPoll transport p = (Except.ok (), p, []) := by
  simp [PollerState.poll, h]

/-- Iterated polls on a done poller return the state unchanged and issue
nothing. -/
theorem pollMany_done_noop (handlerPoll : PollerState → Request)
    (transport : Request → Except GoError HttpResponse) (n : Nat)
    (p : PollerState) (h : p.done = true) :
    PollerState.pollMany handlerPoll transport n p = (p, []) := by
  induction n with
  | zero => rfl
  | succ k ih =>
    simp [PollerState.pollMany, poll_done_noop handlerPoll transport p h, ih]

/-! ## Claim theorems -/

/-- C1: for every call to `BeginCreateCertificate`, `BeginDeleteCertificate`
or `BeginRecoverDeletedCertificate` whose options carry a non-empty
`ResumeToken`, the client reconstructs the poller from the token via
`NewPollerFromResumeToken` with the matching handler kind, and issues no
initiating mutating request. -/
theorem resume_token_skips_initiating_request
    (vaultURL certificateName token : String)
    (doCreate : Except GoError (HttpResponse × Option String))
    (doDelete doRecover : Except GoError HttpResponse)
    (h : token ≠ "") :
    beginCreateCertificate vaultURL certificateName token doCreate =
      (Except.ok (PollerStart.fromResumeToken token
        { kind := CertHandlerKind.create, certificateName := certificateName,
          pollURL := "", status := "" }), []) ∧
    beginDeleteCertificate vaultURL certificateName token doDelete =
      (Except.ok (PollerStart.fromResumeToken token
        { kind := CertHandlerKind.delete, certificateName := certificateName,
          pollURL := "", status := "" }), []) ∧
    beginRecoverDeletedCertificate vaultURL certificateName token doRecover =
      (Except.ok (PollerStart.fromResumeToken token
        { kind := CertHandlerKind.recover, certificateName := certificateName,
          pollURL := "", status := "" }), []) := by
  refine ⟨?_, ?_, ?_⟩ <;>
    simp [beginCreateCertificate, beginDeleteCertificate,
      beginRecoverDeletedCertificate, h]

/-- Witness for C1 at a concrete non-empty token. -/
theorem resume_token_skips_initiating_request_witness :
    beginCreateCertificate "https://v" "cert1" "tok"
        (Except.error (GoError.message "unused")) =
      (Except.ok (PollerStart.fromResumeToken "tok"
        { kind := CertHandlerKind.create, certificateName := "cert1",
          pollURL := "", status := "" }), []) ∧
    beginDeleteCertificate "https://v" "cert1" "tok"
        (Except.error (GoError.message "unused")) =
      (Except.ok (PollerStart.fromResumeToken "tok"
        { kind := CertHandlerKind.delete, certificateName := "cert1",
          pollURL := "", status := "" }), []) ∧
    beginRecoverDeletedCertificate "https://v" "cert1" "tok"
        (Except.error (GoError.message "unused")) =
      (Except.ok (PollerStart.fromResumeToken "tok"
        { kind := CertHandlerKind.recover, certificateName := "cert1",
          pollURL := "", status := "" }), []) :=
  resume_token_skips_initiating_request "https://v" "cert1" "tok"
    (Except.error (GoError.message "unused"))
    (Except.error (GoError.message "unused"))
    (Except.error (GoError.message "unused")) (by decide)

/-- C2: every poller (the `Future` being the raw-response instantiation of
the same engine, spec §4.4) in a terminal status has `Poll` as a no-op: no
request is issued, the stored state — in particular the status — is
unchanged, and `Done()` remains true. -/
theorem terminal_poll_is_noop (handlerPoll : PollerState → Request)
    (transport : Request → Except GoError HttpResponse) (p : PollerState)
    (h : p.done = true) :
    PollerState.poll handlerPoll transport p = (Except.ok (), p, []) ∧
    (PollerState.poll handlerPoll transport p).2.1.status = p.status ∧
    (PollerState.poll handlerPoll transport p).2.1.done = true := by
  have e := poll_done_noop handlerPoll transport p h
  exact ⟨e, by rw [e], by rw [e]; exact h⟩

/-- Witness for C2 at a concrete terminal poller. -/
theorem terminal_poll_is_noop_witness :
    PollerState.poll sampleHandlerPoll sampleTransport sampleTerminalPoller =
      (Except.ok (), sampleTerminalPoller, []) ∧
    (PollerState.poll sampleHandlerPoll sampleTransport sampleTerminalPoller).2.1.status =
      sampleTerminalPoller.status ∧
    (PollerState.poll sampleHandlerPoll sampleTransport sampleTerminalPoller).2.1.done = true :=
  terminal_poll_is_noop sampleHandlerPoll sampleTransport sampleTerminalPoller (by decide)

/-- C3: for a `BeginCreateCertificate` call with an empty resume token whose
initiating `CreateCertificate` request succeeds, the handler's poll URL is
set to the `Location` header of the captured raw response; when that header
is absent (`Header.Get` yields `""`), the call returns the error
"missing Location header" and no poller. -/
theorem create_poll_url_from_location (vaultURL certificateName loc st : String)
    (rawResp : HttpResponse) (hloc : headerGet rawResp.headers "Location" = loc) :
    (loc ≠ "" →
      beginCreateCertificate vaultURL certificateName ""
          (Except.ok (rawResp, some st)) =
        (Except.ok (PollerStart.fresh rawResp
          { kind := CertHandlerKind.create, certificateName := certificateName,
            pollURL := loc, status := st }),
         [Request.createCertificate vaultURL certificateName])) ∧
    (loc = "" → ∀ createStatus,
      beginCreateCertificate vaultURL certificateName ""
          (Except.ok (rawResp, createStatus)) =
        (Except.error (GoError.message "missing Location header"),
         [Request.createCertificate vaultURL certificateName])) := by
  constructor
  · intro hne
    simp [beginCreateCertificate, hloc, hne]
  · intro heq createStatus
    simp [beginCreateCertificate, hloc, heq]

/-- Witness for C3: both branches at concrete responses — one with a
`Location` header, one without. -/
theorem create_poll_url_from_location_witness :
    beginCreateCertificate "https://v" "cert1" ""
        (Except.ok (respWithLocation, some "inProgress")) =
      (Except.ok (PollerStart.fresh respWithLocation
        { kind := CertHandlerKind.create, certificateName := "cert1",
          pollURL := "https://v/pending", status := "inProgress" }),
       [Request.createCertificate "https://v" "cert1"]) ∧
    beginCreateCertificate "https://v" "cert1" ""
        (Except.ok (respWithoutLocation, some "inProgress")) =
      (Except.error (GoError.message "missing Location header"),
       [Request.createCertificate "https://v" "cert1"]) :=
  ⟨(create_poll_url_from_location "https://v" "cert1" "https://v/pending"
      "inProgress" respWithLocation (by decide)).1 (by decide),
   (create_poll_url_from_location "https://v" "cert1" "" "inProgress"
      respWithoutLocation (by decide)).2 rfl (some "inProgress")⟩

/-- C4 counterexample: an initiating response with HTTP status 200 whose body
carries an explicit `InProgress` status field yields a poller that is *not*
immediately done — per spec §4.1 the body status field takes precedence over
the HTTP status code, so "status 200 ⇒ immediately done" is false as stated. -/
theorem status200_poller_not_always_done :
    (HttpResponse.mk 200 [] (some "InProgress") "").statusCode = 200 ∧
    PollerState.done (newPoller (HttpResponse.mk 200 [] (some "InProgress") "")) =
      false := by
  decide

/-- C4 (amended): for every initiating call whose response has status 200 and
whose body carries no explicit status field, the returned poller is
immediately done, any number of subsequent polls issues zero requests and
leaves the state unchanged, and the final result is exactly that same
initiating response — no poll needed. -/
theorem sync_completion_immediately_done (resp : HttpResponse)
    (handlerPoll : PollerState → Request)
    (transport : Request → Except GoError HttpResponse) (n : Nat)
    (h200 : resp.statusCode = 200) (hbody : resp.bodyStatus = none) :
    PollerState.done (newPoller resp) = true ∧
    (PollerState.pollMany handlerPoll transport n (newPoller resp)).2 = [] ∧
    (PollerState.pollMany handlerPoll transport n (newPoller resp)).1 =
      newPoller resp ∧
    PollerState.result (newPoller resp) = Except.ok resp := by
  have hst : (newPoller resp).status = OperationStatus.succeeded := by
    simp [newPoller, extractStatus, hbody, h200]
  have hdone : PollerState.done (newPoller resp) = true := by
    simp [PollerState.done, hst, OperationStatus.isTerminal]
  have hmany := pollMany_done_noop handlerPoll transport n (newPoller resp) hdone
  refine ⟨hdone, ?_, ?_, ?_⟩
  · rw [hmany]
  · rw [hmany]
  · have hex : extractStatus resp = OperationStatus.succeeded := hst
    simp [PollerState.result, newPoller, hex]

/-- Witness for C4 (amended) at the concrete plain 200 response. -/
theorem sync_completion_immediately_done_witness :
    PollerState.done (newPoller sampleResponse200) = true ∧
    (PollerState.pollMany sampleHandlerPoll sampleTransport 3
        (newPoller sampleResponse200)).2 = [] ∧
    (PollerState.pollMany sampleHandlerPoll sampleTransport 3
        (newPoller sampleResponse200)).1 = newPoller sampleResponse200 ∧
    PollerState.result (newPoller sampleResponse200) =
      Except.ok sampleResponse200 :=
  sync_completion_immediately_done sampleResponse200 sampleHandlerPoll
    sampleTransport 3 rfl rfl

/-- Accessor for the handler a `Begin*` call attached to its poller. -/
def PollerStart.handler : PollerStart → CertHandler
  | PollerStart.fromResumeToken _ h => h
  | PollerStart.fresh _ h => h

/-- C5: each per-kind handler derives its first poll target per its kind —
whenever a `Begin*` call returns a poller, the handler it carries polls:
for certificate-create, the URL taken from the initiating response's
`Location` header (via a plain GET); for certificate-delete, the
deleted-certificate endpoint (`GetDeletedCertificate` request for the
certificate name); for certificate-recover, the certificate endpoint
(`GetCertificate` request for the certificate name). -/
theorem handler_first_poll_targets (vaultURL certificateName st : String)
    (rawResp : HttpResponse)
    (hloc : headerGet rawResp.headers "Location" ≠ "") :
    (∀ start,
      (beginCreateCertificate vaultURL certificateName ""
          (Except.ok (rawResp, some st))).1 = Except.ok start →
      CertHandler.pollRequest vaultURL start.handler =
        Request.rawGet (headerGet rawResp.headers "Location")) ∧
    (∀ start,
      (beginDeleteCertificate vaultURL certificateName ""
          (Except.ok rawResp)).1 = Except.ok start →
      CertHandler.pollRequest vaultURL start.handler =
        Request.getDeletedCertificate vaultURL certificateName) ∧
    (∀ start,
      (beginRecoverDeletedCertificate vaultURL certificateName ""
          (Except.ok rawResp)).1 = Except.ok start →
      CertHandler.pollRequest vaultURL start.handler =
        Request.getCertificate vaultURL certificateName "") := by
  refine ⟨?_, ?_, ?_⟩ <;> intro start heq
  · simp [beginCreateCertificate, hloc] at heq
    subst heq
    rfl
  · simp [beginDeleteCertificate] at heq
    subst heq
    rfl
  · simp [beginRecoverDeletedCertificate] at heq
    subst heq
    rfl

/-- Witness for C5 at a concrete successful initiating response. -/
theorem handler_first_poll_targets_witness :
    CertHandler.pollRequest "https://v" (PollerStart.handler
      (PollerStart.fresh respWithLocation
        { kind := CertHandlerKind.create, certificateName := "cert1",
          pollURL := "https://v/pending", status := "inProgress" })) =
      Request.rawGet (headerGet respWithLocation.headers "Location") ∧
    CertHandler.pollRequest "https://v" (PollerStart.handler
      (PollerStart.fresh respWithLocation
        { kind := CertHandlerKind.delete, certificateName := "cert1",
          pollURL := "", status := "" })) =
      Request.getDeletedCertificate "https://v" "cert1" ∧
    CertHandler.pollRequest "https://v" (PollerStart.handler
      (PollerStart.fresh respWithLocation
        { kind := CertHandlerKind.recover, certificateName := "cert1",
          pollURL := "", status := "" })) =
      Request.getCertificate "https://v" "cert1" "" :=
  ⟨(handler_first_poll_targets "https://v" "cert1" "inProgress"
      respWithLocation (by decide)).1 _ rfl,
   (handler_first_poll_targets "https://v" "cert1" "inProgress"
      respWithLocation (by decide)).2.1 _ rfl,
   (handler_first_poll_targets "https://v" "cert1" "inProgress"
      respWithLocation (by decide)).2.2 _ rfl⟩

/-- C6: the final typed result of the certificate-create poller is fetched by
a `GetCertificate` call for the same certificate name (version `""`, nil
options) and converted to `CreateCertificateResponse`; when `GetCertificate`
errors, the handler's result function returns that error together with the
zero-valued `CreateCertificateResponse`. -/
theorem create_result_via_get_certificate (vaultURL certificateName : String)
    (getCertificate : Request → GetCertificateResponse × Option GoError) :
    (beginCreateCertificateResult vaultURL certificateName getCertificate).2 =
      [Request.getCertificate vaultURL certificateName ""] ∧
    (∀ e, (getCertificate (Request.getCertificate vaultURL certificateName "")).2 =
        some e →
      (beginCreateCertificateResult vaultURL certificateName getCertificate).1 =
        ({ certificateWithPolicy := emptyCertificateWithPolicy }, some e)) ∧
    ((getCertificate (Request.getCertificate vaultURL certificateName "")).2 =
        none →
      (beginCreateCertificateResult vaultURL certificateName getCertificate).1 =
        ({ certificateWithPolicy :=
            (getCertificate (Request.getCertificate vaultURL certificateName "")).1.certificateWithPolicy },
         none)) := by
  refine ⟨?_, ?_, ?_⟩
  · cases h : (getCertificate (Request.getCertificate vaultURL certificateName "")).2 <;>
      simp [beginCreateCertificateResult, h]
  · intro e he
    simp [beginCreateCertificateResult, he]
  · intro hnone
    simp [beginCreateCertificateResult, hnone]

/-- The `GetCertificate` outcome used by the C6 witness: a fixed error. -/
def sampleGetCertificateErr : Request → GetCertificateResponse × Option GoError :=
  fun _ => ({ certificateWithPolicy := emptyCertificateWithPolicy },
            some (GoError.message "certificate not found"))

/-- Witness for C6: concrete error outcome of `GetCertificate`. -/
theorem create_result_via_get_certificate_witness :
    (beginCreateCertificateResult "https://v" "cert1" sampleGetCertificateErr).2 =
      [Request.getCertificate "https://v" "cert1" ""] ∧
    (beginCreateCertificateResult "https://v" "cert1" sampleGetCertificateErr).1 =
      ({ certificateWithPolicy := emptyCertificateWithPolicy },
       some (GoError.message "certificate not found")) :=
  ⟨(create_result_via_get_certificate "https://v" "cert1" sampleGetCertificateErr).1,
   (create_result_via_get_certificate "https://v" "cert1" sampleGetCertificateErr).2.1
     (GoError.message "certificate not found") rfl⟩

/-- C7: each sync-members responder accepts exactly its documented status
set: `CreateOrUpdateResponder` 200/201/202, `DeleteResponder` 200/202/204,
`RefreshMemberSchemaResponder` 200/202 — a nil error exactly on membership. -/
theorem responder_status_sets (resp : HttpResponse) :
    ((CreateOrUpdateResponder resp).2 = none ↔
      resp.statusCode ∈ [200, 201, 202]) ∧
    ((DeleteResponder resp).2 = none ↔ resp.statusCode ∈ [200, 202, 204]) ∧
    ((RefreshMemberSchemaResponder resp).2 = none ↔
      resp.statusCode ∈ [200, 202]) := by
  refine ⟨?_, ?_, ?_⟩
  · by_cases h : resp.statusCode ∈ [200, 201, 202] <;>
      simp [CreateOrUpdateResponder, withErrorUnlessStatusCode, h]
  · by_cases h : resp.statusCode ∈ [200, 202, 204] <;>
      simp [DeleteResponder, withErrorUnlessStatusCode, h]
  · by_cases h : resp.statusCode ∈ [200, 202] <;>
      simp [RefreshMemberSchemaResponder, withErrorUnlessStatusCode, h]

/-- Witness for C7 at the concrete 200 response. -/
theorem responder_status_sets_witness :
    ((CreateOrUpdateResponder sampleResponse200).2 = none ↔
      sampleResponse200.statusCode ∈ [200, 201, 202]) ∧
    ((DeleteResponder sampleResponse200).2 = none ↔
      sampleResponse200.statusCode ∈ [200, 202, 204]) ∧
    ((RefreshMemberSchemaResponder sampleResponse200).2 = none ↔
      sampleResponse200.statusCode ∈ [200, 202]) :=
  responder_status_sets sampleResponse200

/-- C8: the Future-based delete-style responders return only the raw terminal
HTTP response for the caller to interpret, while `CreateOrUpdateResponder`
additionally unmarshals the accepted response's body into the typed
`SyncMember` (whose embedded response is also the raw one). -/
theorem delete_style_raw_response (resp : HttpResponse) :
    (DeleteResponder resp).1 = { response := some resp } ∧
    (RefreshMemberSchemaResponder resp).1 = { response := some resp } ∧
    ((CreateOrUpdateResponder resp).2 = none →
      (CreateOrUpdateResponder resp).1 =
        { properties := some resp.body, response := { response := some resp } }) ∧
    (CreateOrUpdateResponder resp).1.response = { response := some resp } := by
  refine ⟨rfl, rfl, ?_, ?_⟩
  · intro h
    cases hm : withErrorUnlessStatusCode [200, 201, 202] resp with
    | none => simp [CreateOrUpdateResponder, hm]
    | some e => simp [CreateOrUpdateResponder, hm] at h
  · cases hm : withErrorUnlessStatusCode [200, 201, 202] resp <;>
      simp [CreateOrUpdateResponder, hm]

/-- Witness for C8 at the concrete 200 response. -/
theorem delete_style_raw_response_witness :
    (DeleteResponder sampleResponse200).1 = { response := some sampleResponse200 } ∧
    (CreateOrUpdateResponder sampleResponse200).1 =
      { properties := some sampleResponse200.body,
        response := { response := some sampleResponse200 } } :=
  ⟨(delete_style_raw_response sampleResponse200).1,
   (delete_style_raw_response sampleResponse200).2.2.1 rfl⟩

/-- A `generated.KeyAttributes` value with every field nil — in particular a
nil `RecoveryLevel`. -/
def attrsNilRecoveryLevel : KeyAttributes :=
  { recoverableDays := none, recoveryLevel := none, enabled := none,
    expires := none, notBefore := none, created := none, updated := none,
    exportable := none }

/-- A `generated.KeyAttributes` value with a non-nil `RecoveryLevel`. -/
def attrsPurgeable : KeyAttributes :=
  { attrsNilRecoveryLevel with recoveryLevel := some "Purgeable" }

/-- C9: `keyPropertiesFromGenerated` performs no nil-pointer dereference when
its attributes argument is nil or has a non-nil `RecoveryLevel`: a nil
argument yields a (non-nil) pointer to the zero `Properties`, and any
argument satisfying the precondition yields some non-nil pointer; but a
non-nil argument whose `RecoveryLevel` is nil makes the unconditional
dereference `*i.RecoveryLevel` panic (the concrete failing input
`attrsNilRecoveryLevel` exhibits it). -/
theorem keyPropertiesFromGenerated_safety :
    (∀ i id name version managed vaultURL tags releasePolicy,
      (i = none ∨ ∃ a, i = some a ∧ a.recoveryLevel ≠ none) →
      keyPropertiesFromGenerated i id name version managed vaultURL tags
        releasePolicy ≠ none) ∧
    (∀ id name version managed vaultURL tags releasePolicy,
      keyPropertiesFromGenerated none id name version managed vaultURL tags
        releasePolicy = some (some emptyKeyProperties)) ∧
    keyPropertiesFromGenerated (some attrsNilRecoveryLevel) none none none
      none none none none = none := by
  refine ⟨?_, ?_, rfl⟩
  · intro i id name version managed vaultURL tags releasePolicy hpre
    rcases hpre with hnil | ⟨a, hi, hlvl⟩
    · subst hnil
      simp [keyPropertiesFromGenerated]
    · subst hi
      cases hl : a.recoveryLevel with
      | none => exact absurd hl hlvl
      | some lvl => simp [keyPropertiesFromGenerated, hl]
  · intro id name version managed vaultURL tags releasePolicy
    rfl

/-- Witness for C9: the no-panic part at a concrete non-nil argument with a
non-nil `RecoveryLevel`, and the nil-argument part at concrete arguments. -/
theorem keyPropertiesFromGenerated_safety_witness :
    keyPropertiesFromGenerated (some attrsPurgeable) none none none none none
      none none ≠ none ∧
    keyPropertiesFromGenerated none none none none none none none none =
      some (some emptyKeyProperties) :=
  ⟨keyPropertiesFromGenerated_safety.1 (some attrsPurgeable) none none none
      none none none none (Or.inr ⟨attrsPurgeable, rfl, by decide⟩),
   keyPropertiesFromGenerated_safety.2.1 none none none none none none none⟩

/-- A `JSONWebKey` with every pointer and slice nil. -/
def jwkAllNil : JSONWebKey :=
  { crv := none, d := none, dp := none, dq := none, e := none, k := none,
    keyOps := none, id := none, keyType := none, n := none, p := none,
    q := none, qi := none, t := none, x := none, y := none }

/-- C10 counterexample: the round trip does not preserve a nil `KeyOps`
slice — `toGenerated` runs `make([]*string, 0)`, a non-nil empty slice, so
`jsonWebKeyFromGenerated (j.toGenerated())` has an empty non-nil `KeyOps`
where `j` had nil, and the two values differ in that field. -/
theorem jsonWebKey_roundtrip_nil_keyops_counterexample :
    jwkAllNil.keyOps = none ∧
    (jsonWebKeyFromGenerated (some (JSONWebKey.toGenerated jwkAllNil))).keyOps =
      some [] ∧
    jsonWebKeyFromGenerated (some (JSONWebKey.toGenerated jwkAllNil)) ≠
      jwkAllNil := by
  refine ⟨rfl, rfl, ?_⟩
  intro h
  have : (jsonWebKeyFromGenerated (some (JSONWebKey.toGenerated jwkAllNil))).keyOps =
      jwkAllNil.keyOps := by rw [h]
  simp [jwkAllNil, jsonWebKeyFromGenerated, JSONWebKey.toGenerated] at this

/-- C10 (amended): for every `JSONWebKey` value `j`, the round trip
`jsonWebKeyFromGenerated (j.toGenerated())` equals `j` in every field except
that `KeyOps` becomes the non-nil slice with the same elements (the
element-wise pointer casts are inverse); in particular the round trip equals
`j` exactly whenever `j.KeyOps` is non-nil, byte-slice and pointer fields
preserved including nil. -/
theorem jsonWebKey_roundtrip (j : JSONWebKey) :
    jsonWebKeyFromGenerated (some (JSONWebKey.toGenerated j)) =
      { j with keyOps := some (sliceElems j.keyOps) } ∧
    (j.keyOps ≠ none →
      jsonWebKeyFromGenerated (some (JSONWebKey.toGenerated j)) = j) := by
  have hmain : jsonWebKeyFromGenerated (some (JSONWebKey.toGenerated j)) =
      { j with keyOps := some (sliceElems j.keyOps) } := by
    simp [jsonWebKeyFromGenerated, JSONWebKey.toGenerated, sliceElems]
  refine ⟨hmain, ?_⟩
  intro hne
  rw [hmain]
  cases hops : j.keyOps with
  | none => exact absurd hops hne
  | some l =>
    cases j
    simp_all [sliceElems]

/-- A `JSONWebKey` with a non-nil `KeyOps` slice and some non-nil fields. -/
def jwkSample : JSONWebKey :=
  { jwkAllNil with
    keyOps := some [some "encrypt", none]
    id := some "https://v/keys/k1/1"
    keyType := some "RSA"
    n := some [1, 2, 3] }

/-- Witness for C10 (amended) at a concrete key with non-nil `KeyOps`. -/
theorem jsonWebKey_roundtrip_witness :
    jsonWebKeyFromGenerated (some (JSONWebKey.toGenerated jwkSample)) =
      { jwkSample with keyOps := some (sliceElems jwkSample.keyOps) } ∧
    jsonWebKeyFromGenerated (some (JSONWebKey.toGenerated jwkSample)) =
      jwkSample :=
  ⟨(jsonWebKey_roundtrip jwkSample).1,
   (jsonWebKey_roundtrip jwkSample).2 (by decide)⟩
